import Mathlib

/-!
# Verification of the `second_brain` ingestion pipeline

Shallow embedding of the repository's transcription fallback chain
(`second_brain/transcription/{core,captions,whisper}.py`), the diagnostics
collector (`second_brain/content_ingestor/diagnostics/collector.py`) and the
pipeline orchestrator (`second_brain/content_ingestor/runner.py`), together
with proofs of the specification's testable properties.

External collaborators (the caption-retrieval client, the audio downloader,
the transcription model, the language-model stages) are modelled as
environment records supplying their outcomes; Python exceptions are modelled
explicitly as `Except String` (an error is a raised exception carrying
`str(exc)`), so "the function never raises" is a provable statement rather
than one true by the type of the embedding.
-/

namespace SecondBrain

/-! ## Transcription subsystem: shared contracts

`second_brain/transcription/schema.py` — dataclasses `TranscriptionConfig`
and `TranscriptionResult`.  `execution_time_sec` is wall-clock time measured
by `time.time()`; it is modelled as a `Nat` supplied by the environment. -/

structure TranscriptionConfig where
  download_audio_dir : Option String := none
  transcribe : Bool := true
deriving Repr, DecidableEq

structure TranscriptionResult where
  success : Bool
  transcript_text : String := ""
  audio_path : Option String := none
  method : Option String := none
  warnings : List String := []
  errors : List String := []
  suggested_fixes : List String := []
  execution_time_sec : Nat := 0
deriving Repr, DecidableEq

/-! ## Caption strategy (`second_brain/transcription/captions.py`) -/

/-- Python `"v=" in url`: does the two-character separator occur in the
character list? -/
def hasVEq : List Char → Bool
  | 'v' :: '=' :: _ => true
  | _ :: rest => hasVEq rest
  | [] => false

/-- The characters after the first occurrence of `"v="` (everything Python
`url.split("v=")[1:]` still joins together). -/
def afterVEq : List Char → List Char
  | 'v' :: '=' :: rest => rest
  | _ :: rest => afterVEq rest
  | [] => []

/-- The prefix up to (excluding) the next occurrence of `"v="`.  Applied
after `afterVEq`, this is exactly piece `[1]` of Python `url.split("v=")`:
the text between the first and second occurrence of the separator (the
separator `"v="` cannot overlap itself, its characters being distinct). -/
def untilVEq : List Char → List Char
  | 'v' :: '=' :: _ => []
  | c :: rest => c :: untilVEq rest
  | [] => []

/-- `_extract_video_id` (identical in `captions.py` and `whisper.py`):
`url.split("v=")[1].split("&")[0]` when `"v=" in url`, otherwise
`raise ValueError("Invalid YouTube URL")`.  `split("v=")[1]` is the text
between the first and second occurrence of `"v="` (`untilVEq ∘ afterVEq`),
and `.split("&")[0]` is its prefix before the first `'&'`. -/
def extract_video_id (url : String) : Except String String :=
  if hasVEq url.data then
    .ok ⟨(untilVEq (afterVEq url.data)).takeWhile (fun c => c ≠ '&')⟩
  else
    .error "Invalid YouTube URL"

/-- Outcome of the external `YouTubeTranscriptApi.get_transcript(video_id)`
call: a list of segments (each segment's `"text"` field), or one of the two
library-specific exceptions, or any other exception with its message. -/
inductive CaptionsFetch where
  | fetched (segments : List String)
  | transcriptsDisabled
  | noTranscriptFound
  | raised (msg : String)
deriving Repr, DecidableEq

/-- Environment for the caption strategy: whether the lazy
`from youtube_transcript_api import ...` statements (`captions.py:12-14`,
executed inside the `try:` on every call) succeed, and what the external
caption API returns for each video id. -/
structure CapEnv where
  import_ok : Bool
  get_transcript : String → CaptionsFetch

/-- The exception that escapes `get_captions` when the lazy import fails:
the raised `ImportError` is matched against the first handler clause
`except (TranscriptsDisabled, NoTranscriptFound)`, and evaluating that
tuple raises `UnboundLocalError` (both names are locals bound only by the
failed import).  An exception raised while a handler clause is being
evaluated is not offered to the remaining handlers, so the later
`except Exception` never runs and the `UnboundLocalError` (whose text is
fixed, independent of the import error) propagates out of the call. -/
def unboundLocalErrorMsg : String :=
  "UnboundLocalError: local variable TranscriptsDisabled referenced before assignment"

/-- `get_captions(youtube_url)`.  The body is a `try:` whose handlers cover
`(TranscriptsDisabled, NoTranscriptFound)` and then `Exception` (which also
catches the `ValueError` from `_extract_video_id`) — but the lazy imports
run first, inside the `try:`, and an import failure escapes the handlers
entirely (see `unboundLocalErrorMsg`).  Only once the import has succeeded
does every path return a `TranscriptionResult`: then the handler names are
bound and the `.ok` on every remaining branch renders the catch-all
structure. -/
def get_captions (env : CapEnv) (youtube_url : String) :
    Except String TranscriptionResult :=
  if env.import_ok then
    match extract_video_id youtube_url with
    | .error e =>
        -- except Exception as e
        .ok { success := false, errors := [e],
              suggested_fixes := ["Retry caption fetch"] }
    | .ok video_id =>
        match env.get_transcript video_id with
        | .fetched segments =>
            .ok { success := true,
                  transcript_text := " ".intercalate segments,
                  method := some "captions" }
        | .transcriptsDisabled =>
            .ok { success := false,
                  warnings := ["YouTube captions unavailable"],
                  suggested_fixes := ["Fallback to audio transcription"] }
        | .noTranscriptFound =>
            .ok { success := false,
                  warnings := ["YouTube captions unavailable"],
                  suggested_fixes := ["Fallback to audio transcription"] }
        | .raised msg =>
            -- except Exception as e
            .ok { success := false, errors := [msg],
                  suggested_fixes := ["Retry caption fetch"] }
  else
    .error unboundLocalErrorMsg

/-! ## Whisper strategy (`second_brain/transcription/whisper.py`) -/

/-- Environment for the audio strategy: outcomes of `os.makedirs`, of the
`yt-dlp` download (`_download_audio`), of `model.transcribe` (the text of
`whisper_result.get("text", "")`, or an exception), and the name of the
temporary directory `tempfile.TemporaryDirectory()` yields. -/
structure WhisperEnv where
  makedirs : String → Except String Unit
  download_audio : String → String → Except String Unit
  model_transcribe : String → Except String String
  tmpdir_name : String

/-- Python `str.strip()` with no argument: remove leading and trailing
whitespace.  (Lean's `Char.isWhitespace` covers space, tab, carriage
return and newline — the whitespace that can occur in model output.) -/
def pyStrip (s : String) : String :=
  ⟨((s.data.dropWhile Char.isWhitespace).reverse.dropWhile
      Char.isWhitespace).reverse⟩

/-- `transcribe_audio` lines 34-39: resolve the audio path.  With a save
directory the path is `os.path.join(save_dir, f"{_extract_video_id(url)}.wav")`
(so the `ValueError` for an invalid URL can surface here) followed by
`os.makedirs`; without one it is `audio.wav` inside a fresh temporary
directory. -/
def audio_path_of (env : WhisperEnv) (youtube_url : String)
    (save_dir : Option String) : Except String String :=
  match save_dir with
  | some d =>
      match extract_video_id youtube_url with
      | .error e => .error e
      | .ok vid =>
          match env.makedirs d with
          | .error e => .error e
          | .ok _ => .ok (d ++ "/" ++ vid ++ ".wav")
  | none => .ok (env.tmpdir_name ++ "/audio.wav")

/-- The `try:` block of `transcribe_audio` (lines 33-65): resolve the
audio path, download the audio, build the base result (`success=True`,
`method="whisper"`, fallback warning, audio path kept only when a save
directory was requested), and, only if `do_transcribe`, invoke the model
and grade its stripped text — empty text flips the result to a failure. -/
def transcribe_audio_body (env : WhisperEnv) (youtube_url : String)
    (save_dir : Option String) (do_transcribe : Bool) :
    Except String TranscriptionResult :=
  match audio_path_of env youtube_url save_dir with
  | .error e => .error e
  | .ok audio_path =>
      match env.download_audio youtube_url audio_path with
      | .error e => .error e
      | .ok _ =>
          let base : TranscriptionResult :=
            { success := true,
              audio_path := if save_dir.isSome then some audio_path else none,
              method := some "whisper",
              warnings := ["Used audio fallback (slower)"] }
          if do_transcribe then
            match env.model_transcribe audio_path with
            | .error e => .error e
            | .ok raw =>
                let text := pyStrip raw
                if text = "" then
                  .ok { base with
                        success := false,
                        errors := ["Whisper returned empty transcript"],
                        suggested_fixes := ["Check audio quality", "Try larger model"] }
                else
                  .ok { base with transcript_text := text }
          else
            .ok base

/-- `transcribe_audio(youtube_url, save_dir, do_transcribe)`.  The body is a
single `try:` with a catch-all `except Exception`, so the function itself
never raises: the final `match` is the handler. -/
def transcribe_audio (env : WhisperEnv) (youtube_url : String)
    (save_dir : Option String) (do_transcribe : Bool) :
    Except String TranscriptionResult :=
  match transcribe_audio_body env youtube_url save_dir do_transcribe with
  | .ok r => .ok r
  | .error e =>
      -- except Exception as e
      .ok { success := false, errors := [e],
            suggested_fixes := ["Ensure yt-dlp/whisper installed", "Check ffmpeg"] }

/-! ## Coordinator (`second_brain/transcription/core.py`) -/

/-- `transcribe(youtube_url, config)`: try captions; on success return that
result with its elapsed time; otherwise fall back to `transcribe_audio`,
extend the fallback result's warnings / errors / suggested fixes with the
caption attempt's, and return it.  `elapsed` stands for
`time.time() - start` at whichever return executes. -/
def transcribe (cenv : CapEnv) (wenv : WhisperEnv)
    (youtube_url : String) (config : TranscriptionConfig) (elapsed : Nat) :
    Except String TranscriptionResult :=
  match get_captions cenv youtube_url with
  | .error e => .error e
  | .ok captions_result =>
      if captions_result.success then
        .ok { captions_result with execution_time_sec := elapsed }
      else
        match transcribe_audio wenv youtube_url
            config.download_audio_dir config.transcribe with
        | .error e => .error e
        | .ok whisper_result =>
            .ok { whisper_result with
                  execution_time_sec := elapsed,
                  warnings := whisper_result.warnings ++ captions_result.warnings,
                  errors := whisper_result.errors ++ captions_result.errors,
                  suggested_fixes :=
                    whisper_result.suggested_fixes ++ captions_result.suggested_fixes }

/-! ## Content-ingestor data model (`second_brain/content_ingestor/schema.py`)

`execution_time_ms` is a Python float filled from a wall-clock timer; it is
modelled as an optional `Nat` (its value never influences control flow). -/

inductive FailureType where
  | input_error
  | source_error
  | extraction_error
  | structure_error
  | interpretation_error
deriving Repr, DecidableEq

structure StageFailure where
  stage : String
  type : FailureType
  cause : String
  impact : String
  suggested_fixes : List String := []
deriving Repr, DecidableEq

structure StageResult where
  stage_name : String
  success : Bool
  warnings : List String := []
  errors : List String := []
  failures : List StageFailure := []
  suggested_fixes : List String := []
  execution_time_ms : Option Nat := none
deriving Repr, DecidableEq

/-- `Diagnostics`: `stage_status` is a Python dict keyed by stage name;
dicts preserve insertion order, so it is modelled as an association list
with unique keys. -/
structure Diagnostics where
  stage_status : List (String × StageResult) := []
  warnings : List String := []
  errors : List String := []
  suggested_fixes : List String := []
deriving Repr, DecidableEq

/-! ## Diagnostics collector
(`second_brain/content_ingestor/diagnostics/collector.py`) -/

/-- The collector's mutable state: `run_id`, the `_stage_status` dict
(insertion-ordered, unique keys) and the three global lists. -/
structure DiagnosticsCollector where
  run_id : Nat
  stage_status : List (String × StageResult) := []
  global_warnings : List String := []
  global_errors : List String := []
  global_suggested_fixes : List String := []
deriving Repr, DecidableEq

/-- `DiagnosticsCollector.__init__`. -/
def DiagnosticsCollector.init (run_id : Nat) : DiagnosticsCollector :=
  { run_id }

/-- `add_stage_result`: raises `ValueError(f"Duplicate stage result for
{result.stage_name}")` — before any mutation of the collector — when the
stage name is already registered; otherwise stores the result and extends
the global lists (stage-level fixes, then each structured failure's fixes).
The error branch carries no successor state: a rejected call leaves the
collector exactly as it was. -/
def add_stage_result (c : DiagnosticsCollector) (result : StageResult) :
    Except String DiagnosticsCollector :=
  if (c.stage_status.lookup result.stage_name).isSome then
    .error ("Duplicate stage result for " ++ result.stage_name)
  else
    .ok { c with
          stage_status := c.stage_status ++ [(result.stage_name, result)],
          global_warnings := c.global_warnings ++ result.warnings,
          global_errors := c.global_errors ++ result.errors,
          global_suggested_fixes := c.global_suggested_fixes
            ++ result.suggested_fixes
            ++ (result.failures.map (fun f => f.suggested_fixes)).flatten }

/-- `has_fatal_failure`: true iff any stored result has `success=False`. -/
def has_fatal_failure (c : DiagnosticsCollector) : Bool :=
  c.stage_status.any (fun p => !p.2.success)

/-- `build_diagnostics`: copies the collector's state into a `Diagnostics`
value, deduplicating the suggested fixes.  The source computes
`list(set(self._global_suggested_fixes))` — the distinct elements in an
unspecified order; this is modelled as `List.dedup` (the distinct elements,
first occurrence kept). -/
def build_diagnostics (c : DiagnosticsCollector) : Diagnostics :=
  { stage_status := c.stage_status,
    warnings := c.global_warnings,
    errors := c.global_errors,
    suggested_fixes := c.global_suggested_fixes.dedup }

/-- A call against the collector's mutable interface: either an
`add_stage_result` submission or a `build_diagnostics` query. -/
inductive CollectorOp where
  | add (result : StageResult)
  | build
deriving Repr

/-- Interpreter for a sequence of collector calls, threading the state and
recording the value returned by each `build_diagnostics` call; an
uncaught `ValueError` from `add_stage_result` aborts the sequence. -/
def collectorRun :
    DiagnosticsCollector → List CollectorOp →
    Except String (DiagnosticsCollector × List Diagnostics)
  | c, [] => .ok (c, [])
  | c, .add r :: ops =>
      match add_stage_result c r with
      | .error e => .error e
      | .ok c' => collectorRun c' ops
  | c, .build :: ops =>
      match collectorRun c ops with
      | .error e => .error e
      | .ok (c', ds) => .ok (c', build_diagnostics c :: ds)

/-! ## Pipeline artifact and stage writes
(`second_brain/content_ingestor/runner.py` and the five stage modules)

The artifact is a Python dict initialized by `run_ingestion` with keys
`identity, source, raw, structure, semantics, diagnostics`.  `identity` and
`source.url` are modelled as `Option`s so that "the key is present" is a
provable statement, not one forced by the type.  The remaining `source` and
`raw` sub-fields are an association list of optional string values
(pydantic's `exclude_none` dump drops the `none`-valued ones); the
`structure` and `semantics` sections are replaced wholesale by their stages
and are kept opaque. -/

structure Identity where
  content_id : Nat
  workflow_run_id : Nat
  created_at : Nat
  workflow_version : String := "0.1.0"
deriving Repr, DecidableEq

structure ContentObject where
  identity : Option Identity
  source_url : Option String
  source_fields : List (String × Option String) := []
  raw_fields : List (String × Option String) := []
  structure_payload : List (String × String) := []
  semantics_payload : List (String × String) := []
  diagnostics : Diagnostics := {}
deriving Repr, DecidableEq

/-- Dict field assignment: overwrite in place if the key exists, else
append (Python dict update semantics). -/
def setField (fields : List (String × Option String)) (key : String)
    (v : Option String) : List (String × Option String) :=
  if (fields.lookup key).isSome then
    fields.map (fun p => if p.1 = key then (key, v) else p)
  else
    fields ++ [(key, v)]

/-- The closed set of artifact mutations performed by the five stage
modules (checked against every `content_object[...] = ...` site in
`stages/*.py`):

* `validate_input.py:117-118` — `source["video_id"]`, `source["url"]`;
* `fetch_metadata.py:84-99` — `source` sub-fields and `raw` sub-fields,
  values possibly `None` (`info.get(...)`);
* `fetch_transcript.py:42-45` — `raw` sub-fields;
* `analyze_structure.py:118,157,193,224,247` — `content_object["structure"]`
  replaced wholesale; `:143` — a warning appended under
  `diagnostics["warnings"]`;
* `analyze_semantics.py:103,141,177,208,231` — `content_object["semantics"]`
  replaced wholesale; `:128` — a diagnostics warning.

No stage ever writes or deletes `content_object["identity"]`, and the only
write to `source["url"]` stores a string. -/
inductive StageWrite where
  | set_source_url (v : String)
  | set_source_field (key : String) (v : Option String)
  | set_raw_field (key : String) (v : Option String)
  | set_structure (p : List (String × String))
  | set_semantics (p : List (String × String))
  | append_diag_warning (w : String)
deriving Repr

def applyWrite (obj : ContentObject) : StageWrite → ContentObject
  | .set_source_url v => { obj with source_url := some v }
  | .set_source_field k v => { obj with source_fields := setField obj.source_fields k v }
  | .set_raw_field k v => { obj with raw_fields := setField obj.raw_fields k v }
  | .set_structure p => { obj with structure_payload := p }
  | .set_semantics p => { obj with semantics_payload := p }
  | .append_diag_warning w =>
      { obj with diagnostics :=
          { obj.diagnostics with warnings := obj.diagnostics.warnings ++ [w] } }

def applyWrites (obj : ContentObject) (ws : List StageWrite) : ContentObject :=
  ws.foldl applyWrite obj

/-- Everything a `StageResult` carries except the stage name; each stage
module constructs its results with `stage_name` equal to that module's
fixed name literal, so the name is supplied by the stage specification. -/
structure StageResultBody where
  success : Bool
  warnings : List String := []
  errors : List String := []
  failures : List StageFailure := []
  suggested_fixes : List String := []
  execution_time_ms : Option Nat := none
deriving Repr, DecidableEq

def mkStageResult (name : String) (b : StageResultBody) : StageResult :=
  { stage_name := name, success := b.success, warnings := b.warnings,
    errors := b.errors, failures := b.failures,
    suggested_fixes := b.suggested_fixes,
    execution_time_ms := b.execution_time_ms }

/-- One invocation of a stage's `process` on the current artifact: the
in-place writes it performed (also the ones preceding a raise — in-place
mutations survive an exception), and either the returned result body or the
raised exception's message.  The outcome is environment-determined: the
stages call network clients and language models. -/
def StageBehavior : Type :=
  ContentObject → List StageWrite × Except String StageResultBody

/-- A stage as the runner sees it: the module-derived `stage_name`
(`stage_func.__module__.split('.')[-1]`) and the `process` function. -/
structure StageSpec where
  name : String
  process : StageBehavior

/-- Environment of one run: the run id, the identity created for the run,
the behavior of each of the five stage modules at each invocation, and the
outcome of the final `ContentObject.model_validate` call. -/
structure RunEnv where
  run_id : Nat
  identity : Identity
  validate_input : StageBehavior
  fetch_metadata : StageBehavior
  fetch_transcript : StageBehavior
  analyze_structure : StageBehavior
  analyze_semantics : StageBehavior
  final_validation_ok : ContentObject → Bool

/-- The fixed `STAGES` list of `runner.py`. -/
def STAGES (env : RunEnv) : List StageSpec :=
  [⟨"validate_input", env.validate_input⟩,
   ⟨"fetch_metadata", env.fetch_metadata⟩,
   ⟨"fetch_transcript", env.fetch_transcript⟩,
   ⟨"analyze_structure", env.analyze_structure⟩,
   ⟨"analyze_semantics", env.analyze_semantics⟩]

/-- The synthetic `StageFailure` built by the runner's exception boundary
(`runner.py:103-109`). -/
def syntheticFailure (stage_name : String) : StageFailure :=
  { stage := stage_name,
    type := .source_error,
    cause := "unexpected_exception",
    impact := "stage aborted",
    suggested_fixes := ["Review logs", "Report bug with traceback"] }

/-- The synthetic `StageResult` built by the runner's exception boundary
(`runner.py:110-115`). -/
def syntheticStageResult (stage_name exc : String) : StageResult :=
  { stage_name := stage_name,
    success := false,
    errors := ["Unhandled exception: " ++ exc],
    failures := [syntheticFailure stage_name] }

/-- One iteration of the runner's stage loop (`runner.py:81-128`).  The
`try:` block covers both the stage call and the first
`collector.add_stage_result`; on any exception the boundary records the
synthetic failure result — and if *that* second submission raises the
duplicate-key `ValueError`, nothing catches it and the run aborts. -/
def runStage (obj : ContentObject) (col : DiagnosticsCollector)
    (s : StageSpec) :
    Except String (ContentObject × DiagnosticsCollector) :=
  let obj' := applyWrites obj (s.process obj).1
  let tryBody : Except String DiagnosticsCollector :=
    match (s.process obj).2 with
    | .error e => .error e
    | .ok body => add_stage_result col (mkStageResult s.name body)
  match tryBody with
  | .ok col' => .ok (obj', col')
  | .error exc =>
      match add_stage_result col (syntheticStageResult s.name exc) with
      | .error e => .error e
      | .ok col' => .ok (obj', col')

/-- The runner's loop over the stage list. -/
def runStages :
    ContentObject → DiagnosticsCollector → List StageSpec →
    Except String (ContentObject × DiagnosticsCollector)
  | obj, col, [] => .ok (obj, col)
  | obj, col, s :: rest =>
      match runStage obj col s with
      | .error e => .error e
      | .ok (obj', col') => runStages obj' col' rest

/-- The initial artifact built at `runner.py:66-74`: identity and source
present from the first instant, the remaining sections empty.
`Source(url=url).model_dump()` emits `source_type="youtube"` plus the
optional fields as `None`. -/
def initContent (identity : Identity) (url : String) : ContentObject :=
  { identity := some identity,
    source_url := some url,
    source_fields :=
      [("source_type", some "youtube"), ("video_id", none), ("title", none),
       ("channel_name", none), ("duration_seconds", none),
       ("published_at", none), ("language", none),
       ("captions_available", none)] }

/-- `validated.model_dump(by_alias=False, exclude_none=True)`: pydantic
re-emits the parsed artifact, dropping `None`-valued optional fields.  The
typed sections (`identity`, the sections themselves) and every
string-valued field pass through unchanged. -/
def validated_dump (obj : ContentObject) : ContentObject :=
  { obj with
    source_fields := obj.source_fields.filter (fun p => p.2.isSome),
    raw_fields := obj.raw_fields.filter (fun p => p.2.isSome) }

/-- `run_ingestion(url, config)` (`runner.py:41-148`): initialize the
artifact and the collector, run the five stages through the failure
boundary, overwrite `content_object["diagnostics"]` with
`collector.build_diagnostics()`, then attempt the best-effort final
validation — on validation failure the raw object is returned anyway. -/
def run_ingestion (env : RunEnv) (url : String) :
    Except String ContentObject :=
  let obj0 := initContent env.identity url
  let col0 := DiagnosticsCollector.init env.run_id
  match runStages obj0 col0 (STAGES env) with
  | .error e => .error e
  | .ok (obj, col) =>
      let obj1 := { obj with diagnostics := build_diagnostics col }
      if env.final_validation_ok obj1 then
        .ok (validated_dump obj1)
      else
        .ok obj1

/-- The artifact each stage receives (the loop's object state just before
each invocation). -/
def stageObjs (obj : ContentObject) : List StageSpec → List ContentObject
  | [] => []
  | s :: rest => obj :: stageObjs (applyWrites obj (s.process obj).1) rest

/-- The `stage_status` entry one loop iteration records for a stage:
the stage's own result on a normal return, the boundary's synthetic result
when the stage raised. -/
def stageEntry (s : StageSpec) (obj : ContentObject) : StageResult :=
  match (s.process obj).2 with
  | .ok body => mkStageResult s.name body
  | .error exc => syntheticStageResult s.name exc

/-- The `stage_status` entries the loop records, in order. -/
def stageEntries (obj : ContentObject) : List StageSpec → List (String × StageResult)
  | [] => []
  | s :: rest =>
      (s.name, stageEntry s obj) :: stageEntries (applyWrites obj (s.process obj).1) rest

/-- The object state after the loop. -/
def finalObj (obj : ContentObject) : List StageSpec → ContentObject
  | [] => obj
  | s :: rest => finalObj (applyWrites obj (s.process obj).1) rest

/-! ## Helper lemmas -/

theorem lookup_append {β : Type} (l₁ l₂ : List (String × β)) (k : String) :
    (l₁ ++ l₂).lookup k = ((l₁.lookup k).or (l₂.lookup k)) := by
  induction l₁ with
  | nil => rfl
  | cons p t ih =>
      cases p with
      | mk a b =>
          simp only [List.cons_append, List.lookup]
          cases h : (k == a) with
          | true => rfl
          | false => exact ih

theorem get_captions_isOk (env : CapEnv) (url : String)
    (himp : env.import_ok = true) :
    ∃ r, get_captions env url = .ok r := by
  unfold get_captions
  simp only [himp, if_true]
  cases hx : extract_video_id url with
  | error e => simp only [hx]; exact ⟨_, rfl⟩
  | ok vid =>
      simp only [hx]
      cases hf : env.get_transcript vid <;> simp only [hf] <;> exact ⟨_, rfl⟩

theorem get_captions_success (env : CapEnv) (url : String)
    (r : TranscriptionResult)
    (h : get_captions env url = .ok r) (hs : r.success = true) :
    r.method = some "captions" ∧ r.audio_path = none := by
  unfold get_captions at h
  cases himp : env.import_ok with
  | false =>
      simp only [himp, Bool.false_eq_true, if_false] at h
      exact Except.noConfusion h
  | true =>
      simp only [himp, if_true] at h
      cases hx : extract_video_id url with
      | error e =>
          simp only [hx] at h
          cases h
          simp at hs
      | ok vid =>
          simp only [hx] at h
          cases hf : env.get_transcript vid <;> simp only [hf] at h <;> cases h <;>
            first
              | exact ⟨rfl, rfl⟩
              | simp at hs

theorem transcribe_audio_isOk (env : WhisperEnv) (url : String)
    (sd : Option String) (dt : Bool) :
    ∃ r, transcribe_audio env url sd dt = .ok r := by
  unfold transcribe_audio
  cases transcribe_audio_body env url sd dt <;> exact ⟨_, rfl⟩

theorem transcribe_audio_body_shape (env : WhisperEnv) (url : String)
    (sd : Option String) (dt : Bool) (r : TranscriptionResult)
    (h : transcribe_audio_body env url sd dt = .ok r) :
    r.method = some "whisper" ∧ r.warnings = ["Used audio fallback (slower)"] := by
  unfold transcribe_audio_body at h
  cases hp : audio_path_of env url sd with
  | error e => simp only [hp] at h; exact Except.noConfusion h
  | ok p =>
      simp only [hp] at h
      cases hd : env.download_audio url p with
      | error e => simp only [hd] at h; exact Except.noConfusion h
      | ok u =>
          simp only [hd] at h
          cases dt with
          | false =>
              simp only [Bool.false_eq_true, if_false] at h
              cases h; exact ⟨rfl, rfl⟩
          | true =>
              simp only [if_true] at h
              cases hm : env.model_transcribe p with
              | error e => simp only [hm] at h; exact Except.noConfusion h
              | ok raw =>
                  simp only [hm] at h
                  by_cases ht : pyStrip raw = ""
                  · rw [if_pos ht] at h; cases h; exact ⟨rfl, rfl⟩
                  · rw [if_neg ht] at h; cases h; exact ⟨rfl, rfl⟩

theorem transcribe_audio_success_method (env : WhisperEnv) (url : String)
    (sd : Option String) (dt : Bool) (r : TranscriptionResult)
    (h : transcribe_audio env url sd dt = .ok r) (hs : r.success = true) :
    r.method = some "whisper" := by
  unfold transcribe_audio at h
  cases hb : transcribe_audio_body env url sd dt with
  | ok w =>
      rw [hb] at h; cases h
      exact (transcribe_audio_body_shape env url sd dt _ hb).1
  | error e =>
      rw [hb] at h; cases h; simp at hs

theorem transcribe_audio_body_noTranscribe (env : WhisperEnv) (url : String)
    (sd : Option String) (r : TranscriptionResult)
    (h : transcribe_audio_body env url sd false = .ok r) :
    r.transcript_text = "" ∧ r.success = true ∧ r.method = some "whisper" := by
  unfold transcribe_audio_body at h
  cases hp : audio_path_of env url sd with
  | error e => simp only [hp] at h; exact Except.noConfusion h
  | ok p =>
      simp only [hp] at h
      cases hd : env.download_audio url p with
      | error e => simp only [hd] at h; exact Except.noConfusion h
      | ok u =>
          simp only [hd, Bool.false_eq_true, if_false] at h
          cases h
          exact ⟨rfl, rfl, rfl⟩

/-! ### Concrete environments used by witnesses and counterexamples -/

/-- Caption API importing fine and reporting disabled captions for every
video. -/
def capEnvDisabled : CapEnv := ⟨true, fun _ => .transcriptsDisabled⟩

/-- Caption API importing fine and serving a two-segment transcript for
every video. -/
def capEnvHit : CapEnv := ⟨true, fun _ => .fetched ["hello", "world"]⟩

/-- Caption environment whose lazy `youtube_transcript_api` import fails. -/
def capEnvImportFail : CapEnv := ⟨false, fun _ => .transcriptsDisabled⟩

/-- Audio environment where every external step succeeds and the model
returns a non-empty transcript. -/
def wEnvHello : WhisperEnv :=
  { makedirs := fun _ => .ok (),
    download_audio := fun _ _ => .ok (),
    model_transcribe := fun _ => .ok "hello world",
    tmpdir_name := "/tmp/run" }

/-- Audio environment whose model yields whitespace only. -/
def wEnvBlank : WhisperEnv :=
  { wEnvHello with model_transcribe := fun _ => .ok "   " }

/-- The result `get_captions` produces under `capEnvDisabled`. -/
def capDisabledResult : TranscriptionResult :=
  { success := false,
    warnings := ["YouTube captions unavailable"],
    suggested_fixes := ["Fallback to audio transcription"] }

/-- The result `get_captions` produces under `capEnvHit`. -/
def capHitResult : TranscriptionResult :=
  { success := true, transcript_text := "hello world",
    method := some "captions" }

/-- The result `transcribe_audio` produces under `wEnvHello` with no save
directory and transcription enabled. -/
def rWhisperHello : TranscriptionResult :=
  { success := true, transcript_text := "hello world",
    method := some "whisper",
    warnings := ["Used audio fallback (slower)"] }

/-- The result `transcribe_audio` produces with `do_transcribe=false` and a
successful download (no save directory). -/
def rDownloadOnly : TranscriptionResult :=
  { success := true, method := some "whisper",
    warnings := ["Used audio fallback (slower)"] }

/-! ## Claim C3 — transcribe=false: model not invoked, but method IS set -/

/-- C3 counterexample: with `transcribe=false` and a successful audio
download the strategy returns `method = some "whisper"` — the `method`
field is set, contradicting the claim that it is left unset. -/
theorem transcribe_audio_noTranscribe_method_set :
    transcribe_audio wEnvHello "https://y/watch?v=ABC" none false
      = .ok rDownloadOnly
    ∧ rDownloadOnly.method ≠ none
    ∧ rDownloadOnly.transcript_text = "" := by
  refine ⟨rfl, ?_, rfl⟩
  simp [rDownloadOnly]

/-- C3 (amended): with `transcribe=false` only audio acquisition is
performed — the result does not depend on the transcription model in any
way — the transcript stays empty, and a successful result carries `method`
set to `"whisper"` (not unset). -/
theorem transcribe_audio_download_only (env : WhisperEnv)
    (model₂ : String → Except String String) (url : String)
    (sd : Option String) :
    transcribe_audio { env with model_transcribe := model₂ } url sd false
      = transcribe_audio env url sd false
    ∧ ∀ r, transcribe_audio env url sd false = .ok r →
        r.transcript_text = "" ∧ (r.success = true → r.method = some "whisper") := by
  constructor
  · rfl
  · intro r h
    unfold transcribe_audio at h
    cases hb : transcribe_audio_body env url sd false with
    | ok w =>
        simp only [hb] at h
        cases h
        obtain ⟨h1, _, h3⟩ := transcribe_audio_body_noTranscribe env url sd _ hb
        exact ⟨h1, fun _ => h3⟩
    | error e =>
        simp only [hb] at h
        cases h
        exact ⟨rfl, fun hs => by simp at hs⟩

/-- Witness for C3 (amended), at a concrete environment: swapping in a
crashing model does not change the `transcribe=false` call, and the
returned result has an empty transcript and `method = some "whisper"`. -/
theorem transcribe_audio_download_only_witness :
    transcribe_audio { wEnvHello with model_transcribe := fun _ => .error "model crash" }
        "https://y/watch?v=ABC" none false
      = transcribe_audio wEnvHello "https://y/watch?v=ABC" none false
    ∧ rDownloadOnly.transcript_text = ""
    ∧ (rDownloadOnly.success = true → rDownloadOnly.method = some "whisper") := by
  have h := transcribe_audio_download_only wEnvHello
    (fun _ => .error "model crash") "https://y/watch?v=ABC" none
  exact ⟨h.1, (h.2 rDownloadOnly rfl).1, (h.2 rDownloadOnly rfl).2⟩

/-! ## Claim C4 — empty model output fails the attempt -/

/-- C4: when audio acquisition succeeds, transcription is enabled and the
model's stripped text is empty, the result has `success = false` even
though every acquisition step succeeded. -/
theorem transcribe_audio_empty_transcript_fails (env : WhisperEnv)
    (url : String) (sd : Option String) (p raw : String)
    (hp : audio_path_of env url sd = .ok p)
    (hd : env.download_audio url p = .ok ())
    (hm : env.model_transcribe p = .ok raw)
    (ht : pyStrip raw = "") :
    transcribe_audio env url sd true = .ok
      { success := false,
        audio_path := if sd.isSome then some p else none,
        method := some "whisper",
        warnings := ["Used audio fallback (slower)"],
        errors := ["Whisper returned empty transcript"],
        suggested_fixes := ["Check audio quality", "Try larger model"] } := by
  have hb : transcribe_audio_body env url sd true = .ok
      { success := false,
        audio_path := if sd.isSome then some p else none,
        method := some "whisper",
        warnings := ["Used audio fallback (slower)"],
        errors := ["Whisper returned empty transcript"],
        suggested_fixes := ["Check audio quality", "Try larger model"] } := by
    unfold transcribe_audio_body
    simp only [hp, hd, if_true, hm, ht, if_pos]
  unfold transcribe_audio
  simp only [hb]

/-- Witness for C4: download succeeds, model returns whitespace, and the
call reports failure. -/
theorem transcribe_audio_empty_transcript_fails_witness :
    transcribe_audio wEnvBlank "https://y/watch?v=ABC" none true = .ok
      { success := false,
        audio_path := if (none : Option String).isSome then some "/tmp/run/audio.wav" else none,
        method := some "whisper",
        warnings := ["Used audio fallback (slower)"],
        errors := ["Whisper returned empty transcript"],
        suggested_fixes := ["Check audio quality", "Try larger model"] } :=
  transcribe_audio_empty_transcript_fails wEnvBlank "https://y/watch?v=ABC"
    none "/tmp/run/audio.wav" "   " rfl rfl rfl (by decide)

/-! ## Claim C5 — fallback absorbs the caption attempt's diagnostics -/

/-- C5: when the caption attempt fails and the audio+model fallback
succeeds, the coordinator's result has `method = "whisper"` and contains
every warning, error and suggested fix of the failed caption attempt. -/
theorem transcribe_fallback_merges (cenv : CapEnv) (wenv : WhisperEnv)
    (url : String) (config : TranscriptionConfig) (elapsed : Nat)
    (c w : TranscriptionResult)
    (hc : get_captions cenv url = .ok c) (hcf : c.success = false)
    (hw : transcribe_audio wenv url config.download_audio_dir config.transcribe = .ok w)
    (hws : w.success = true) :
    ∃ r, transcribe cenv wenv url config elapsed = .ok r
      ∧ r.method = some "whisper"
      ∧ (∀ x ∈ c.warnings, x ∈ r.warnings)
      ∧ (∀ x ∈ c.errors, x ∈ r.errors)
      ∧ (∀ x ∈ c.suggested_fixes, x ∈ r.suggested_fixes) := by
  unfold transcribe
  simp only [hc, hcf, Bool.false_eq_true, if_false, hw]
  refine ⟨_, rfl, ?_, ?_, ?_, ?_⟩
  · exact transcribe_audio_success_method wenv url _ _ w hw hws
  · intro x hx; exact List.mem_append_right _ hx
  · intro x hx; exact List.mem_append_right _ hx
  · intro x hx; exact List.mem_append_right _ hx

/-- Witness for C5: captions disabled, model returns text; the final result
is whisper-tagged and carries the caption warning and suggested fix. -/
theorem transcribe_fallback_merges_witness :
    ∃ r, transcribe capEnvDisabled wEnvHello "https://y/watch?v=ABC"
        ({} : TranscriptionConfig) 3 = .ok r
      ∧ r.method = some "whisper"
      ∧ (∀ x ∈ capDisabledResult.warnings, x ∈ r.warnings)
      ∧ (∀ x ∈ capDisabledResult.errors, x ∈ r.errors)
      ∧ (∀ x ∈ capDisabledResult.suggested_fixes, x ∈ r.suggested_fixes) :=
  transcribe_fallback_merges capEnvDisabled wEnvHello "https://y/watch?v=ABC"
    ({} : TranscriptionConfig) 3 capDisabledResult rWhisperHello (by rfl) rfl (by rfl) rfl

/-! ## Claim C6 — caption success returns immediately, no audio -/

/-- C6: when the caption strategy succeeds, `transcribe` returns its result
(with the elapsed time filled in) immediately, with `method = "captions"`
and no audio path; the call is independent of the audio environment, so no
audio acquisition occurs. -/
theorem transcribe_captions_fast_path (cenv : CapEnv)
    (wenv wenv₂ : WhisperEnv) (url : String) (config : TranscriptionConfig)
    (elapsed : Nat) (c : TranscriptionResult)
    (hc : get_captions cenv url = .ok c) (hs : c.success = true) :
    transcribe cenv wenv url config elapsed
        = .ok { c with execution_time_sec := elapsed }
    ∧ transcribe cenv wenv url config elapsed
        = transcribe cenv wenv₂ url config elapsed
    ∧ c.method = some "captions" ∧ c.audio_path = none := by
  have hm := get_captions_success cenv url c hc hs
  have h1 : transcribe cenv wenv url config elapsed
      = .ok { c with execution_time_sec := elapsed } := by
    unfold transcribe
    simp only [hc, hs, if_true]
  have h2 : transcribe cenv wenv₂ url config elapsed
      = .ok { c with execution_time_sec := elapsed } := by
    unfold transcribe
    simp only [hc, hs, if_true]
  exact ⟨h1, h1.trans h2.symm, hm.1, hm.2⟩

/-- Witness for C6 at a concrete environment with available captions. -/
theorem transcribe_captions_fast_path_witness :
    transcribe capEnvHit wEnvHello "https://y/watch?v=ABC"
        ({} : TranscriptionConfig) 7
        = .ok { capHitResult with execution_time_sec := 7 }
    ∧ transcribe capEnvHit wEnvHello "https://y/watch?v=ABC"
        ({} : TranscriptionConfig) 7
        = transcribe capEnvHit wEnvBlank "https://y/watch?v=ABC"
            ({} : TranscriptionConfig) 7
    ∧ capHitResult.method = some "captions" ∧ capHitResult.audio_path = none :=
  transcribe_captions_fast_path capEnvHit wEnvHello wEnvBlank
    "https://y/watch?v=ABC" ({} : TranscriptionConfig) 7 capHitResult (by rfl) rfl

/-! ## Claim C10 — the coordinator is total only if the lazy import holds -/

/-- C10 counterexample: when the lazy `youtube_transcript_api` import
fails, the caption strategy does NOT catch the resulting exception — the
handler clause itself raises an `UnboundLocalError` that escapes both
handlers — and `transcribe` propagates it.  The claim that `transcribe`
never propagates an exception is false at this input. -/
theorem transcribe_import_failure_escapes :
    get_captions capEnvImportFail "https://y/watch?v=ABC"
        = .error unboundLocalErrorMsg
    ∧ transcribe capEnvImportFail wEnvHello "https://y/watch?v=ABC"
        ({} : TranscriptionConfig) 0 = .error unboundLocalErrorMsg :=
  ⟨rfl, rfl⟩

/-- C10 (amended): the audio strategy is total, and whenever the lazy
`youtube_transcript_api` import succeeds, the caption strategy and the
coordinator also return a `TranscriptionResult` — from that point on the
handlers really do catch everything, including the invalid-URL
`ValueError` from video-id extraction. -/
theorem transcribe_total_of_import_ok (cenv : CapEnv) (wenv : WhisperEnv)
    (url : String) (config : TranscriptionConfig) (elapsed : Nat)
    (himp : cenv.import_ok = true) :
    (∃ r, get_captions cenv url = .ok r)
    ∧ (∃ r, transcribe_audio wenv url config.download_audio_dir
          config.transcribe = .ok r)
    ∧ (∃ r, transcribe cenv wenv url config elapsed = .ok r) := by
  refine ⟨get_captions_isOk cenv url himp, transcribe_audio_isOk wenv url _ _, ?_⟩
  obtain ⟨c, hc⟩ := get_captions_isOk cenv url himp
  unfold transcribe
  simp only [hc]
  by_cases hs : c.success = true
  · simp only [hs, if_true]; exact ⟨_, rfl⟩
  · obtain ⟨w, hw⟩ := transcribe_audio_isOk wenv url
      config.download_audio_dir config.transcribe
    simp only [hs, if_false, hw]
    exact ⟨_, rfl⟩

/-- Witness for C10 (amended), at a concrete environment whose import
succeeds and whose captions are disabled. -/
theorem transcribe_total_of_import_ok_witness :
    (∃ r, get_captions capEnvDisabled "https://y/watch?v=ABC" = .ok r)
    ∧ (∃ r, transcribe_audio wEnvHello "https://y/watch?v=ABC"
          ({} : TranscriptionConfig).download_audio_dir
          ({} : TranscriptionConfig).transcribe = .ok r)
    ∧ (∃ r, transcribe capEnvDisabled wEnvHello "https://y/watch?v=ABC"
          ({} : TranscriptionConfig) 0 = .ok r) :=
  transcribe_total_of_import_ok capEnvDisabled wEnvHello "https://y/watch?v=ABC"
    ({} : TranscriptionConfig) 0 rfl

/-! ## Claim C7 — duplicate stage submission is rejected without effect -/

/-- C7: submitting a `StageResult` whose `stage_name` is already registered
makes `add_stage_result` fail with the duplicate-key `ValueError` carrying
exactly the message the source formats; the raise happens before any
mutation, so the embedded error branch carries no successor state — the
collector visible to later calls is the unchanged one. -/
theorem add_stage_result_duplicate_rejected
    (c : DiagnosticsCollector) (r : StageResult)
    (h : (c.stage_status.lookup r.stage_name).isSome = true) :
    add_stage_result c r
      = .error ("Duplicate stage result for " ++ r.stage_name) := by
  unfold add_stage_result
  rw [if_pos h]

/-- Witness for C7: a collector already holding a result named
`validate_input` rejects a second submission under the same name. -/
theorem add_stage_result_duplicate_rejected_witness :
    add_stage_result
      { run_id := 0,
        stage_status :=
          [("validate_input", { stage_name := "validate_input", success := true })] }
      { stage_name := "validate_input", success := false }
      = .error ("Duplicate stage result for " ++ "validate_input") :=
  add_stage_result_duplicate_rejected _ _ (by decide)

/-! ## Claim C8 — suggested fixes are deduplicated -/

/-- C8: whatever sequence of `add_stage_result` calls produced the
collector's state — stages and nested failures may repeat fix text
arbitrarily — the `suggested_fixes` list in the built diagnostics has no
duplicate entries. -/
theorem build_diagnostics_suggested_fixes_nodup (c : DiagnosticsCollector) :
    (build_diagnostics c).suggested_fixes.Nodup :=
  List.nodup_dedup _

/-! ## Claim C9 — build_diagnostics is pure and idempotent -/

/-- C9: two `build_diagnostics()` calls with no `add_stage_result` between
them return equal values and leave the collector state unchanged. -/
theorem build_diagnostics_idempotent (c : DiagnosticsCollector) :
    ∃ d : Diagnostics,
      collectorRun c [CollectorOp.build, CollectorOp.build] = .ok (c, [d, d]) :=
  ⟨build_diagnostics c, rfl⟩

/-! ## Runner lemmas -/

/-- Default stage specification, used only as the `getD` fallback. -/
def dfltSpec : StageSpec := ⟨"", fun _ => ([], .ok { success := true })⟩

/-- Default artifact, used only as the `getD` fallback. -/
def dfltObj : ContentObject := { identity := none, source_url := none }

/-- Default stage-status entry, used only as the `getD` fallback. -/
def dfltEntry : String × StageResult := ("", { stage_name := "", success := true })

theorem applyWrite_identity (obj : ContentObject) (w : StageWrite) :
    (applyWrite obj w).identity = obj.identity := by
  cases w <;> rfl

theorem applyWrite_source_url (obj : ContentObject) (w : StageWrite)
    (h : obj.source_url.isSome = true) :
    (applyWrite obj w).source_url.isSome = true := by
  cases w <;> first | rfl | exact h

theorem applyWrites_identity (ws : List StageWrite) :
    ∀ obj : ContentObject, (applyWrites obj ws).identity = obj.identity := by
  induction ws with
  | nil => intro obj; rfl
  | cons w t ih =>
      intro obj
      show (applyWrites (applyWrite obj w) t).identity = obj.identity
      rw [ih (applyWrite obj w), applyWrite_identity]

theorem applyWrites_source_url (ws : List StageWrite) :
    ∀ obj : ContentObject, obj.source_url.isSome = true →
      (applyWrites obj ws).source_url.isSome = true := by
  induction ws with
  | nil => intro obj h; exact h
  | cons w t ih =>
      intro obj h
      show (applyWrites (applyWrite obj w) t).source_url.isSome = true
      exact ih (applyWrite obj w) (applyWrite_source_url obj w h)

theorem finalObj_identity (specs : List StageSpec) :
    ∀ obj : ContentObject, (finalObj obj specs).identity = obj.identity := by
  induction specs with
  | nil => intro obj; rfl
  | cons s rest ih =>
      intro obj
      show (finalObj (applyWrites obj (s.process obj).1) rest).identity = obj.identity
      rw [ih, applyWrites_identity]

theorem finalObj_source_url (specs : List StageSpec) :
    ∀ obj : ContentObject, obj.source_url.isSome = true →
      (finalObj obj specs).source_url.isSome = true := by
  induction specs with
  | nil => intro obj h; exact h
  | cons s rest ih =>
      intro obj h
      show (finalObj (applyWrites obj (s.process obj).1) rest).source_url.isSome = true
      exact ih _ (applyWrites_source_url _ obj h)

theorem stageObjs_invariant (specs : List StageSpec) :
    ∀ (obj o : ContentObject), o ∈ stageObjs obj specs →
      o.identity = obj.identity
      ∧ (obj.source_url.isSome = true → o.source_url.isSome = true) := by
  induction specs with
  | nil => intro obj o ho; simp [stageObjs] at ho
  | cons s rest ih =>
      intro obj o ho
      rw [stageObjs] at ho
      rcases List.mem_cons.1 ho with hEq | hMem
      · subst hEq; exact ⟨rfl, fun h => h⟩
      · obtain ⟨h1, h2⟩ := ih _ o hMem
        refine ⟨h1.trans (applyWrites_identity _ obj), fun h => h2 ?_⟩
        exact applyWrites_source_url _ obj h

theorem runStage_ok (obj : ContentObject) (col : DiagnosticsCollector)
    (s : StageSpec) (h : col.stage_status.lookup s.name = none) :
    ∃ col', runStage obj col s
        = .ok (applyWrites obj (s.process obj).1, col')
      ∧ col'.stage_status = col.stage_status ++ [(s.name, stageEntry s obj)] := by
  unfold runStage
  cases ho : (s.process obj).2 with
  | ok body =>
      simp only [ho, add_stage_result, mkStageResult, h, Option.isSome_none,
        Bool.false_eq_true, if_false]
      exact ⟨_, rfl, by simp [stageEntry, ho, mkStageResult]⟩
  | error exc =>
      simp only [ho, add_stage_result, syntheticStageResult, h,
        Option.isSome_none, Bool.false_eq_true, if_false]
      exact ⟨_, rfl, by simp [stageEntry, ho, syntheticStageResult]⟩

theorem runStages_ok (specs : List StageSpec) :
    ∀ (obj : ContentObject) (col : DiagnosticsCollector),
    (∀ s ∈ specs, col.stage_status.lookup s.name = none) →
    ((specs.map fun s => s.name).Nodup) →
    ∃ col', runStages obj col specs = .ok (finalObj obj specs, col')
      ∧ col'.stage_status = col.stage_status ++ stageEntries obj specs := by
  induction specs with
  | nil =>
      intro obj col _ _
      exact ⟨col, rfl, by simp [stageEntries]⟩
  | cons s rest ih =>
      intro obj col h hn
      obtain ⟨col1, hrs, hss⟩ := runStage_ok obj col s (h s (List.mem_cons_self s rest))
      rw [List.map_cons, List.nodup_cons] at hn
      have hnext : ∀ t ∈ rest, col1.stage_status.lookup t.name = none := by
        intro t ht
        have h2 : (t.name == s.name) = false := by
          apply beq_eq_false_iff_ne.2
          intro hEq
          exact hn.1 (hEq ▸ List.mem_map_of_mem (fun u => u.name) ht)
        rw [hss, lookup_append, h t (List.mem_cons_of_mem s ht)]
        simp [List.lookup, h2]
      obtain ⟨col2, hrs2, hss2⟩ := ih (applyWrites obj (s.process obj).1) col1 hnext hn.2
      refine ⟨col2, ?_, ?_⟩
      · show (match runStage obj col s with
          | Except.error e => Except.error e
          | Except.ok (o, c) => runStages o c rest)
          = Except.ok (finalObj obj (s :: rest), col2)
        rw [hrs]
        show runStages (applyWrites obj (s.process obj).1) col1 rest = _
        rw [hrs2]
        rfl
      · rw [hss2, hss]
        show _ = col.stage_status ++ ((s.name, stageEntry s obj) :: stageEntries (applyWrites obj (s.process obj).1) rest)
        simp

theorem stageEntries_map_fst (specs : List StageSpec) :
    ∀ obj : ContentObject,
      (stageEntries obj specs).map Prod.fst = specs.map fun s => s.name := by
  induction specs with
  | nil => intro obj; rfl
  | cons s rest ih => intro obj; simp [stageEntries, ih]

theorem stageEntries_getD (specs : List StageSpec) :
    ∀ (obj : ContentObject) (i : Nat), i < specs.length →
      (stageEntries obj specs).getD i dfltEntry
        = ((specs.getD i dfltSpec).name,
           stageEntry (specs.getD i dfltSpec)
             ((stageObjs obj specs).getD i dfltObj)) := by
  induction specs with
  | nil => intro obj i h; simp at h
  | cons s rest ih =>
      intro obj i h
      cases i with
      | zero => rfl
      | succ n =>
          show (stageEntries (applyWrites obj (s.process obj).1) rest).getD n dfltEntry = _
          exact ih _ n (by simpa using h)

/-! ## Claim C1 — the exception boundary never aborts the run -/

/-- C1: if the stage at position `i` raises at its invocation point, the
run still returns an artifact, the diagnostics hold one entry per stage in
the fixed order (so every subsequent stage was invoked), and the raising
stage's entry is the synthetic result: `success=false`, a single
`StageFailure` with cause `"unexpected_exception"` and the fixed suggested
fixes, errors carrying the exception text. -/
theorem run_ingestion_exception_boundary
    (env : RunEnv) (url : String) (i : Nat) (exc : String)
    (hi : i < (STAGES env).length)
    (hraise : (((STAGES env).getD i dfltSpec).process
        ((stageObjs (initContent env.identity url) (STAGES env)).getD i dfltObj)).2
        = .error exc) :
    ∃ artifact, run_ingestion env url = .ok artifact
      ∧ artifact.diagnostics.stage_status.map Prod.fst
          = ["validate_input", "fetch_metadata", "fetch_transcript",
             "analyze_structure", "analyze_semantics"]
      ∧ artifact.diagnostics.stage_status.getD i dfltEntry
          = (((STAGES env).getD i dfltSpec).name,
             syntheticStageResult ((STAGES env).getD i dfltSpec).name exc) := by
  obtain ⟨col, hrun, hss⟩ := runStages_ok (STAGES env)
    (initContent env.identity url) (DiagnosticsCollector.init env.run_id)
    (fun s _ => rfl)
    (by
      show (["validate_input", "fetch_metadata", "fetch_transcript",
             "analyze_structure", "analyze_semantics"] : List String).Nodup
      decide)
  have hstat : col.stage_status
      = stageEntries (initContent env.identity url) (STAGES env) := by
    rw [hss]; rfl
  have hfst : col.stage_status.map Prod.fst
      = ["validate_input", "fetch_metadata", "fetch_transcript",
         "analyze_structure", "analyze_semantics"] := by
    rw [hstat, stageEntries_map_fst]; rfl
  have hget : col.stage_status.getD i dfltEntry
      = (((STAGES env).getD i dfltSpec).name,
         syntheticStageResult ((STAGES env).getD i dfltSpec).name exc) := by
    rw [hstat, stageEntries_getD _ _ i hi]
    rw [show stageEntry ((STAGES env).getD i dfltSpec)
          ((stageObjs (initContent env.identity url) (STAGES env)).getD i dfltObj)
        = syntheticStageResult ((STAGES env).getD i dfltSpec).name exc from by
      unfold stageEntry; rw [hraise]]
  unfold run_ingestion
  simp only [hrun]
  split
  · exact ⟨_, rfl, hfst, hget⟩
  · exact ⟨_, rfl, hfst, hget⟩

/-- A run environment whose first stage raises `"boom"` and whose other
stages succeed without writes. -/
def envBoom : RunEnv :=
  { run_id := 0,
    identity := { content_id := 1, workflow_run_id := 2, created_at := 3 },
    validate_input := fun _ => ([], .error "boom"),
    fetch_metadata := fun _ => ([], .ok { success := true }),
    fetch_transcript := fun _ => ([], .ok { success := true }),
    analyze_structure := fun _ => ([], .ok { success := true }),
    analyze_semantics := fun _ => ([], .ok { success := true }),
    final_validation_ok := fun _ => true }

/-- Witness for C1: under `envBoom`, `validate_input` raises and the run
still produces an artifact with all five entries and the synthetic one
first. -/
theorem run_ingestion_exception_boundary_witness :
    ∃ artifact, run_ingestion envBoom "https://y/watch?v=ABC" = .ok artifact
      ∧ artifact.diagnostics.stage_status.map Prod.fst
          = ["validate_input", "fetch_metadata", "fetch_transcript",
             "analyze_structure", "analyze_semantics"]
      ∧ artifact.diagnostics.stage_status.getD 0 dfltEntry
          = (((STAGES envBoom).getD 0 dfltSpec).name,
             syntheticStageResult ((STAGES envBoom).getD 0 dfltSpec).name "boom") :=
  run_ingestion_exception_boundary envBoom "https://y/watch?v=ABC" 0 "boom"
    (by decide) rfl

/-! ## Claim C2 — identity and source.url always survive -/

/-- C2: every run returns an artifact whose `identity` is the one created
at initialization and whose `source.url` is present; moreover no stage ever
sees (or can produce) an intermediate artifact with either cleared, and the
final validation step preserves both. -/
theorem run_ingestion_identity_invariant (env : RunEnv) (url : String) :
    ∃ artifact, run_ingestion env url = .ok artifact
      ∧ artifact.identity = some env.identity
      ∧ artifact.source_url.isSome = true
      ∧ ∀ o ∈ stageObjs (initContent env.identity url) (STAGES env),
          o.identity = some env.identity ∧ o.source_url.isSome = true := by
  obtain ⟨col, hrun, hss⟩ := runStages_ok (STAGES env)
    (initContent env.identity url) (DiagnosticsCollector.init env.run_id)
    (fun s _ => rfl)
    (by
      show (["validate_input", "fetch_metadata", "fetch_transcript",
             "analyze_structure", "analyze_semantics"] : List String).Nodup
      decide)
  have hid : (finalObj (initContent env.identity url) (STAGES env)).identity
      = some env.identity := by
    rw [finalObj_identity]; rfl
  have hurl : (finalObj (initContent env.identity url) (STAGES env)).source_url.isSome
      = true := finalObj_source_url _ _ rfl
  have hobjs : ∀ o ∈ stageObjs (initContent env.identity url) (STAGES env),
      o.identity = some env.identity ∧ o.source_url.isSome = true := by
    intro o ho
    obtain ⟨h1, h2⟩ := stageObjs_invariant (STAGES env) _ o ho
    exact ⟨h1, h2 rfl⟩
  unfold run_ingestion
  simp only [hrun]
  split
  · exact ⟨_, rfl, hid, hurl, hobjs⟩
  · exact ⟨_, rfl, hid, hurl, hobjs⟩

/-- Witness for C2 at a concrete environment (whose first stage raises):
the artifact still carries the identity and the source url. -/
theorem run_ingestion_identity_invariant_witness :
    ∃ artifact, run_ingestion envBoom "https://y/watch?v=ABC" = .ok artifact
      ∧ artifact.identity = some envBoom.identity
      ∧ artifact.source_url.isSome = true
      ∧ ∀ o ∈ stageObjs (initContent envBoom.identity "https://y/watch?v=ABC")
            (STAGES envBoom),
          o.identity = some envBoom.identity ∧ o.source_url.isSome = true :=
  run_ingestion_identity_invariant envBoom "https://y/watch?v=ABC"

end SecondBrain
